import Mathlib

/-!
Verification development for the rclone-sync applet's orchestration core
(src/runner.rs and src/status.rs).

Modelling conventions:
* Rust `String`/`&str` values are Lean `String`s; the text-processing
  helpers are implemented structurally over `List Char` so that they
  evaluate inside the kernel.  Rust's Unicode-aware `trim`,
  `to_lowercase` and `char::is_whitespace` are modelled by their ASCII
  restrictions (all inputs the program matches on are ASCII).
* Effectful operations are modelled by explicit state passing: the lock
  file is an `Option String` (its content, `none` = absent), process
  liveness is an oracle `alive : Nat → Bool`, and each subprocess launch
  is an oracle call `exec pairIdx attemptIdx extras` returning the exit
  code and captured output of that launch.  Log-file writing is reduced
  to the facts the results expose (the returned log path and the
  auto-resync note flag).
* Machine integers: exit codes are `Int`; the `u32` counters of
  status.rs are `Nat` with explicit parsing bound `< 2^32` and
  saturating addition at `2^32 - 1`, mirroring `u32::saturating_add`.
-/

namespace RcloneSync

/-! ### Character-list string primitives -/

/-- ASCII restriction of Rust `char::is_whitespace`. -/
def isWs (c : Char) : Bool := c == ' ' || c == '\t' || c == '\n' || c == '\r'

/-- Rust `str::trim` (ASCII whitespace). -/
def trimCl (l : List Char) : List Char :=
  ((l.dropWhile isWs).reverse.dropWhile isWs).reverse

/-- Rust `str::trim_start` (ASCII whitespace). -/
def trimStartCl (l : List Char) : List Char := l.dropWhile isWs

/-- Rust `str::trim_end_matches(ch)`. -/
def trimEndMatchesCl (ch : Char) (l : List Char) : List Char :=
  (l.reverse.dropWhile (· == ch)).reverse

/-- Split a character list at every occurrence of a single character,
Rust `str::split(ch)` (all segments kept, possibly empty). -/
def splitCharCl (sep : Char) : List Char → List (List Char)
  | [] => [[]]
  | c :: rest =>
    if c == sep then [] :: splitCharCl sep rest
    else
      match splitCharCl sep rest with
      | [] => [[c]]
      | h :: t => (c :: h) :: t

/-- Split at every character satisfying a predicate (used for
Rust `str::split_whitespace` before discarding empty segments). -/
def splitPredCl (p : Char → Bool) : List Char → List (List Char)
  | [] => [[]]
  | c :: rest =>
    if p c then [] :: splitPredCl p rest
    else
      match splitPredCl p rest with
      | [] => [[c]]
      | h :: t => (c :: h) :: t

/-- Rust `str::split_whitespace`: whitespace-separated tokens, no empties. -/
def splitWsCl (l : List Char) : List (List Char) :=
  (splitPredCl isWs l).filter (· ≠ [])

/-- The suffix strictly after the first occurrence of `pat` (Rust
`str::find(pat)` + slicing past the match); `none` when `pat` does not
occur.  `pat` is assumed non-empty, as at every use site. -/
def afterFirstCl (pat : List Char) : List Char → Option (List Char)
  | [] => none
  | c :: rest =>
    if pat.isPrefixOf (c :: rest) then some (List.drop pat.length (c :: rest))
    else afterFirstCl pat rest

/-- The prefix strictly before the first occurrence of `pat`
(the whole list when `pat` does not occur). -/
def upToFirstCl (pat : List Char) : List Char → List Char
  | [] => []
  | c :: rest =>
    if pat.isPrefixOf (c :: rest) then [] else c :: upToFirstCl pat rest

/-- Rust `str::contains(pat)` for a non-empty pattern. -/
def containsCl (pat l : List Char) : Bool := (afterFirstCl pat l).isSome

/-- ASCII restriction of Rust `str::to_lowercase`. -/
def toLowerCl (l : List Char) : List Char := l.map Char.toLower

/-- Strip a trailing carriage return, as Rust `str::lines` does. -/
def stripCrCl (l : List Char) : List Char :=
  if l.getLast? = some '\r' then l.dropLast else l

/-- Rust `str::lines`: split on `'\n'`, drop the final empty segment
produced by a trailing newline, strip a trailing `'\r'` per line. -/
def rustLinesCl (l : List Char) : List (List Char) :=
  if l = [] then []
  else
    let parts := splitCharCl '\n' l
    let parts := if l.getLast? = some '\n' then parts.dropLast else parts
    parts.map stripCrCl

/-- Rust `u32::from_str`: optional leading `+`, decimal digits, value
bounded by `2^32`. -/
def parseU32 (l : List Char) : Option Nat :=
  let t := if l.head? = some '+' then l.tail else l
  if t ≠ [] ∧ t.all Char.isDigit then
    let n := t.foldl (fun acc c => acc * 10 + (c.toNat - 48)) 0
    if n < 2 ^ 32 then some n else none
  else none

/-- `u32::saturating_add`. -/
def u32SatAdd (a b : Nat) : Nat := min (a + b) (2 ^ 32 - 1)

/-! String-level wrappers (Rust strings are Lean `String`s). -/

def rustTrim (s : String) : String := String.mk (trimCl s.toList)

def containsStr (hay pat : String) : Bool := containsCl pat.toList hay.toList

def rustLines (s : String) : List String := (rustLinesCl s.toList).map String.mk

/-! ### status.rs : result record and output parsing -/

/-- `ScriptResult` from status.rs.  The timestamp is an abstract token
(`Nat`); only its propagation matters to the properties below. -/
structure ScriptResult where
  timestamp : Nat
  exit_code : Int
  stdout : String
  stderr : String
  log_file : Option String
  duration_secs : Option Nat
  deriving Repr, DecidableEq

/-- `ScriptResult::error_summary`: the trimmed last line of the trimmed
stderr when stderr is non-blank, else a generic message for a non-zero
exit code, else `none`. -/
def error_summary (r : ScriptResult) : Option String :=
  let stderrT := rustTrim r.stderr
  if !stderrT.isEmpty then
    (rustLines stderrT).getLast?.map (fun line => rustTrim line)
  else if r.exit_code != 0 then
    some ("Exited with code " ++ toString r.exit_code)
  else none

/-- `ScriptResult::preview_lines`: the last 6 (`MAX_LOG_LINES`)
non-blank trimmed lines of stdout then stderr, via a bounded queue. -/
def preview_lines (r : ScriptResult) : List String :=
  (rustLines r.stdout ++ rustLines r.stderr).foldl
    (fun q line =>
      let t := rustTrim line
      if t.isEmpty then q
      else if q.length == 6 then q.tail ++ [t] else q ++ [t])
    []

/-- One line's test inside `detect_remote_summary`. -/
def remoteSummaryLine (line : String) : Option String :=
  let t := trimCl line.toList
  if t = [] then none
  else
    let cand := toLowerCl t
    if containsCl "remote".toList cand || containsCl "drive".toList cand ||
        containsCl "gdrive".toList cand || containsCl "sync".toList cand then
      some (String.mk t)
    else none

/-- `detect_remote_summary`: first non-blank line (stdout then stderr)
whose lowercase form mentions one of the remote keywords. -/
def detect_remote_summary (r : ScriptResult) : Option String :=
  (rustLines r.stdout ++ rustLines r.stderr).findSome? remoteSummaryLine

/-- One line/label step of `sum_path_changes`: the parsed count when the
line contains `label` followed (after whitespace) by a `u32` and a token
beginning with `changes`. -/
def pathChangeNum (label line : List Char) : Option Nat :=
  match afterFirstCl label line with
  | none => none
  | some rest =>
    match splitWsCl (trimStartCl rest) with
    | numStr :: changesStr :: _ =>
      if "changes".toList.isPrefixOf changesStr then parseU32 numStr else none
    | _ => none

/-- `sum_path_changes`: the saturating sum of the `Path1:`/`Path2:`
change counters over all lines, and whether any line contributed. -/
def sum_path_changes (text : String) : Nat × Bool :=
  (rustLinesCl text.toList).foldl
    (fun acc line =>
      ["Path1:".toList, "Path2:".toList].foldl
        (fun acc label =>
          match pathChangeNum label line with
          | some n => (u32SatAdd acc.1 n, true)
          | none => acc)
        acc)
    (0, false)

/-- One line's contribution inside `extract_last_number_after_label`:
for a trimmed line starting with `label`, the `u32` just after the first
`" / "` and before the following comma, paired with whether the line's
remainder mentions `100%`. -/
def transferLineNum (label line : List Char) : Option (Nat × Bool) :=
  let line := trimCl line
  if label.isPrefixOf line then
    let rest := trimCl (List.drop label.length line)
    match afterFirstCl " / ".toList rest with
    | none => none
    | some afterSlash =>
      if containsCl [','] afterSlash then
        match parseU32 (trimCl (upToFirstCl [','] afterSlash)) with
        | some n => some (n, containsCl "100%".toList rest)
        | none => none
      else none
  else none

/-- `extract_last_number_after_label`: the count of the last
`100%`-flagged matching line, else of the last matching line at any
percentage, else `none`. -/
def extract_last_number_after_label (text label : String) : Option Nat :=
  let r := (rustLinesCl text.toList).foldl
    (fun (acc : Option Nat × Option Nat) line =>
      match transferLineNum label.toList line with
      | some (n, true) => (some n, acc.2)
      | some (n, false) => (acc.1, some n)
      | none => acc)
    (none, none)
  match r.1 with
  | some n => some n
  | none => r.2

/-- `detect_changed_count`: per-pair change counters first, then the
`Transferred:`/`Copied:` fallback on the combined output. -/
def detect_changed_count (r : ScriptResult) : Option Nat :=
  let combined := r.stdout ++ "\n" ++ r.stderr
  let res := sum_path_changes combined
  if res.2 then some res.1
  else
    let transferred := extract_last_number_after_label combined "Transferred:"
    let copied := extract_last_number_after_label combined "Copied:"
    match transferred, copied with
    | some t, some c => some (u32SatAdd t c)
    | some t, none => some t
    | none, some c => some c
    | none, none => none

/-- `SyncState` from status.rs (persisted status record). -/
structure SyncState where
  job : String
  last_run : Option Nat
  last_success : Option Nat
  last_error : Option String
  log_preview : List String
  remote_summary : Option String
  last_exit_code : Option Int
  last_log_file : Option String
  last_changed_count : Option Nat
  last_duration_secs : Option Nat
  deriving Repr, DecidableEq

/-- `SyncState::update_from_result`. -/
def SyncState.update_from_result (st : SyncState) (r : ScriptResult) : SyncState :=
  let st := { st with
    last_run := some r.timestamp
    last_exit_code := some r.exit_code
    log_preview := preview_lines r
    remote_summary := detect_remote_summary r
    last_log_file := r.log_file
    last_changed_count := detect_changed_count r
    last_duration_secs := r.duration_secs }
  if r.exit_code == 0 then
    { st with last_success := some r.timestamp, last_error := none }
  else
    { st with last_error := error_summary r }

/-! ### runner.rs : configuration, validation, pair resolution -/

/-- `SyncPair` from job_config.rs (source field names `local`, `remote`;
`local` is a Lean keyword, hence `localPath`). -/
structure SyncPair where
  localPath : String
  remote : String
  deriving Repr, DecidableEq

/-- `JobConfig` from job_config.rs. -/
structure JobConfig where
  name : String
  local_path : String
  remote : String
  extra_args : List String
  rclone_config_path : Option String
  pairs : List SyncPair
  directories : List String
  lock_file : Option String
  log_dir : Option String
  auto_resync : Bool
  clean_bisync_locks : Bool
  use_nice_ionice : Bool
  deriving Repr, DecidableEq

/-- An apostrophe (the validation messages quote the job name). -/
def sq : String := String.singleton (Char.ofNat 39)

def notConfiguredMsg (name path : String) : String :=
  "Job " ++ sq ++ name ++ sq ++ " is not configured. Please set local_path and remote in "
    ++ path

def missingLocalMsg (name path : String) : String :=
  "Job " ++ sq ++ name ++ sq
    ++ " is missing local_path and has a relative/empty pair.local. Update " ++ path

def missingRemoteMsg (name path : String) : String :=
  "Job " ++ sq ++ name ++ sq
    ++ " is missing remote and has a non-absolute/empty pair.remote. Update " ++ path

/-- The per-pair local test that makes `validate_config` bail when the
base local path is blank: trimmed `pair.local` empty or not absolute. -/
def badPairLocal (p : SyncPair) : Bool :=
  let l := trimCl p.localPath.toList
  l.isEmpty || !(['/'].isPrefixOf l)

/-- The per-pair remote test that makes `validate_config` bail when the
base remote is blank: trimmed `pair.remote` empty or without a colon. -/
def badPairRemote (p : SyncPair) : Bool :=
  let r := trimCl p.remote.toList
  r.isEmpty || !(containsCl [':'] r)

/-- `validate_config` from runner.rs.  `cfgPath` stands for the display
of `job_config_path(&cfg.name)` (an environment-dependent path). -/
def validate_config (cfg : JobConfig) (cfgPath : String) : Except String Unit :=
  let base_local_ok := !(trimCl cfg.local_path.toList).isEmpty
  let base_remote_ok := !(trimCl cfg.remote.toList).isEmpty
  if cfg.pairs.isEmpty then
    if base_local_ok && base_remote_ok then Except.ok ()
    else Except.error (notConfiguredMsg cfg.name cfgPath)
  else if !base_local_ok && cfg.pairs.any badPairLocal then
    Except.error (missingLocalMsg cfg.name cfgPath)
  else if !base_remote_ok && cfg.pairs.any badPairRemote then
    Except.error (missingRemoteMsg cfg.name cfgPath)
  else Except.ok ()

/-- `resolve_pair_paths` from runner.rs. -/
def resolve_pair_paths (cfg : JobConfig) (pair : SyncPair) : String × String :=
  let l := trimCl pair.localPath.toList
  let r := trimCl pair.remote.toList
  let resolved_local :=
    if ['/'].isPrefixOf l then String.mk l
    else if l.isEmpty then cfg.local_path
    else String.mk (trimEndMatchesCl '/' cfg.local_path.toList) ++ "/" ++ String.mk l
  let resolved_remote :=
    if containsCl [':'] r then String.mk r
    else if r.isEmpty then cfg.remote
    else
      let base := trimEndMatchesCl '/' cfg.remote.toList
      if base.getLast? = some ':' then String.mk base ++ String.mk r
      else String.mk base ++ "/" ++ String.mk r
  (resolved_local, resolved_remote)

/-! ### runner.rs : output-signal detection -/

/-- `needs_resync`: the lowercased combined output mentions one of the
three recovery-signal phrases. -/
def needs_resync (stdout stderr : String) : Bool :=
  let combined := toLowerCl (stdout.toList ++ '\n' :: stderr.toList)
  containsCl "cannot find prior path1 or path2 listings".toList combined ||
  containsCl "must run --resync".toList combined ||
  containsCl "bisync aborted".toList combined

/-- One line of `detect_prior_lock_file`: Rust
`line.split("prior lock file found:").nth(1)` is the segment between the
first and second occurrence of the marker; its first whitespace token is
the candidate path. -/
def priorLockFromLine (line : List Char) : Option String :=
  match afterFirstCl "prior lock file found:".toList line with
  | none => none
  | some rest =>
    let seg := upToFirstCl "prior lock file found:".toList rest
    let candidate := (splitWsCl (trimCl seg)).headD []
    if candidate.isEmpty then none else some (String.mk candidate)

/-- `detect_prior_lock_file` over stdout lines then stderr lines. -/
def detect_prior_lock_file (stdout stderr : String) : Option String :=
  (rustLinesCl stdout.toList ++ rustLinesCl stderr.toList).findSome? priorLockFromLine

/-! ### runner.rs : process lock

The lock file is modelled by its content (`none` = file absent), process
liveness by the oracle `alive`, and the current process id by `mypid`.
The modelled filesystem reads and writes succeed, so the
`LockError::Other` branch of the source does not arise. -/

inductive LockError where
  | alreadyRunning (pid : Nat)
  deriving Repr, DecidableEq

deriving instance DecidableEq for Except

structure AcquireResult where
  outcome : Except LockError Unit
  /-- lock-file content after the call -/
  content : Option String
  /-- a stale or unparsable lock file was deleted before re-creating -/
  staleRemoved : Bool
  deriving Repr, DecidableEq

/-- `LockGuard::acquire` from runner.rs. -/
def LockGuard.acquire (content : Option String) (alive : Nat → Bool) (mypid : Nat) :
    AcquireResult :=
  match content with
  | some existing =>
    match parseU32 (trimCl existing.toList) with
    | some pid =>
      if alive pid then ⟨Except.error (LockError.alreadyRunning pid), some existing, false⟩
      else ⟨Except.ok (), some (toString mypid ++ "\n"), true⟩
    | none => ⟨Except.ok (), some (toString mypid ++ "\n"), true⟩
  | none => ⟨Except.ok (), some (toString mypid ++ "\n"), false⟩

/-- `RunningInfo` from runner.rs; `started_at` carries the lock file's
modification time (an abstract token here). -/
structure RunningInfo where
  started_at : Option Nat
  deriving Repr, DecidableEq

structure DetectOutcome where
  running : Option RunningInfo
  /-- lock-file content after the call -/
  content : Option String
  deriving Repr, DecidableEq

/-- `detect_running` from runner.rs.  `mtime` models
`fs::metadata(&path).modified()` converted to a timestamp. -/
def detect_running (content : Option String) (alive : Nat → Bool) (mtime : Option Nat) :
    DetectOutcome :=
  match content with
  | none => ⟨none, none⟩
  | some s =>
    match parseU32 (trimCl s.toList) with
    | none => ⟨none, some s⟩
    | some pid =>
      if alive pid then ⟨some ⟨mtime⟩, some s⟩
      else ⟨none, none⟩

/-- The lock path `run_job` uses: the configured `lock_file` when
non-blank, else the fixed default.  (`lockContent` below is the content
of the file at this path.) -/
def effectiveLockPath (cfg : JobConfig) : String :=
  match cfg.lock_file with
  | some s => if !(rustTrim s).isEmpty then s else "/tmp/rclone-sync.lock"
  | none => "/tmp/rclone-sync.lock"

/-! ### runner.rs : per-pair recovery state machine and run_job

Each subprocess launch is an oracle call `e attemptIdx extras`
(under `run_job`: `exec pairIdx attemptIdx extras`) returning the launch's
exit code and captured output; `extras` is the recovery-flag list the
launch carries (`[]` or `["--resync"]`).  `removeStale lockPath` is the
`remove_stale_lock_file(&lock_path).unwrap_or(false)` oracle.  Command
construction (`resolve_pair_paths` + `build_command`) only shapes the
subprocess invocation and is verified separately. -/

structure AttemptResult where
  code : Int
  stdout : String
  stderr : String
  deriving Repr, DecidableEq

/-- The pair list a run executes: the single implicit base pair when no
pairs are configured, else the configured list verbatim. -/
def effectivePairs (cfg : JobConfig) : List SyncPair :=
  if cfg.pairs.isEmpty then [⟨cfg.local_path, cfg.remote⟩] else cfg.pairs

/-- Attempts 1–2 of a pair: the normal attempt, then — on failure, when
the output names a prior lock file that is removed as stale — one
retry.  Returns the latest attempt's result and the extras of each
launch so far. -/
def lockCleanupPhase (removeStale : String → Bool)
    (e : Nat → List String → AttemptResult) :
    AttemptResult × List (List String) :=
  let a0 := e 0 []
  if a0.code != 0 then
    match detect_prior_lock_file a0.stdout a0.stderr with
    | some lockPath =>
      if removeStale lockPath then (e 1 [], [[], []])
      else (a0, [[]])
    | none => (a0, [[]])
  else (a0, [[]])

structure PairOutcome where
  result : AttemptResult
  /-- extras of each subprocess launch for this pair, in order -/
  attempts : List (List String)
  /-- the auto_resync=false note was written to the log -/
  resyncNote : Bool
  deriving Repr, DecidableEq

/-- The full per-pair loop body of `run_job`: lock-cleanup phase, then —
if still failing with a resync signal — one `--resync` retry when
`auto_resync`, or a log note otherwise. -/
def runPair (autoResync : Bool) (removeStale : String → Bool)
    (e : Nat → List String → AttemptResult) : PairOutcome :=
  let p := lockCleanupPhase removeStale e
  if p.1.code != 0 && needs_resync p.1.stdout p.1.stderr then
    if autoResync then ⟨e p.2.length ["--resync"], p.2 ++ [["--resync"]], false⟩
    else ⟨p.1, p.2, true⟩
  else ⟨p.1, p.2, false⟩

/-- `RunResult` from runner.rs (timestamp and duration, which come from
the wall clock, are outside the model). -/
structure RunResult where
  exit_code : Int
  stdout : String
  stderr : String
  log_file : Option String
  deriving Repr, DecidableEq

structure RunOutcome where
  result : RunResult
  /-- per pair, the extras of each subprocess launch -/
  pairAttempts : List (List (List String))
  deriving Repr, DecidableEq

/-- The accumulation step for `combined_stdout`/`combined_stderr`:
a separating newline only between two non-empty chunks. -/
def combineChunk (acc chunk : String) : String :=
  if !acc.isEmpty && !chunk.isEmpty then acc ++ "\n" ++ chunk else acc ++ chunk

/-- The pair loop of `run_job`, threading the combined output and the
`final_exit` accumulator (overwritten by every failing pair). -/
def runPairsAux (autoResync : Bool) (removeStale : String → Bool)
    (exec : Nat → Nat → List String → AttemptResult) :
    List SyncPair → Nat → String → String → Int →
      String × String × Int × List (List (List String))
  | [], _, so, se, fe => (so, se, fe, [])
  | _ :: rest, idx, so, se, fe =>
    let po := runPair autoResync removeStale (exec idx)
    let so := combineChunk so po.result.stdout
    let se := combineChunk se po.result.stderr
    let fe := if po.result.code != 0 then po.result.code else fe
    let r := runPairsAux autoResync removeStale exec rest (idx + 1) so se fe
    (r.1, r.2.1, r.2.2.1, po.attempts :: r.2.2.2)

/-- `run_job` from runner.rs.  `cfgPath` models the displayed config
path, `logPath` the created log file's path; `lockContent` is the
content of the file at `effectiveLockPath cfg`.  The best-effort
`clean_bisync_locks` pre-clean touches only the external tool's cache
and has no observable effect on the result. -/
def run_job (cfg : JobConfig) (cfgPath logPath : String)
    (lockContent : Option String) (alive : Nat → Bool) (mypid : Nat)
    (removeStale : String → Bool)
    (exec : Nat → Nat → List String → AttemptResult) : Except String RunOutcome :=
  match validate_config cfg cfgPath with
  | Except.error msg => Except.error msg
  | Except.ok () =>
    match (LockGuard.acquire lockContent alive mypid).outcome with
    | Except.error (LockError.alreadyRunning pid) =>
      Except.ok ⟨⟨0, "",
        "Sync already running (PID: " ++ toString pid ++ "). Skipping this run.",
        none⟩, []⟩
    | Except.ok () =>
      let r := runPairsAux cfg.auto_resync removeStale exec (effectivePairs cfg) 0 "" "" 0
      Except.ok ⟨⟨r.2.2.1, r.1, r.2.1, some logPath⟩, r.2.2.2⟩

/-! ### Declarative forms used by the statements below -/

/-- Newline-joined concatenation of the non-empty chunks: the
declarative form of the `combined_stdout`/`combined_stderr`
accumulation of `run_job`. -/
def joinNonEmpty : List String → String
  | [] => ""
  | c :: rest =>
    let r := joinNonEmpty rest
    if c.isEmpty then r
    else if r.isEmpty then c
    else c ++ "\n" ++ r

/-- The exit code of the last non-zero entry (0 when none): the
declarative form of the `final_exit` accumulation of `run_job`. -/
def lastFailingExit (codes : List Int) : Int :=
  (codes.filter (fun c => c != 0)).getLastD 0

/-- The count of the last entry whose `100%` flag equals `want`
(`dflt` when there is none). -/
def lastHit (entries : List (Nat × Bool)) (want : Bool) (dflt : Option Nat) : Option Nat :=
  match entries.reverse.find? (fun e => e.2 == want) with
  | some e => some e.1
  | none => dflt

/-- Declarative form of `extract_last_number_after_label`: the count of
the last `100%`-flagged matching line when one exists, otherwise the
count of the last matching line at any percentage. -/
def extractSpec (text label : String) : Option Nat :=
  let entries := (rustLinesCl text.toList).filterMap (transferLineNum label.toList)
  lastHit entries true (lastHit entries false none)

/-- All `Path1:`/`Path2:` change counters of a text, in scan order. -/
def pathChangesList (text : String) : List Nat :=
  (rustLinesCl text.toList).flatMap
    (fun line =>
      ["Path1:".toList, "Path2:".toList].filterMap (fun lab => pathChangeNum lab line))

/-- The exact configuration condition under which `validate_config`
accepts: with no pairs, both trimmed base paths non-blank; with pairs,
a blank base local (resp. remote) is allowed only when every pair's
local is absolute (resp. every pair's remote colon-qualified). -/
def configValid (cfg : JobConfig) : Bool :=
  let base_local_ok := !(trimCl cfg.local_path.toList).isEmpty
  let base_remote_ok := !(trimCl cfg.remote.toList).isEmpty
  if cfg.pairs.isEmpty then base_local_ok && base_remote_ok
  else
    (base_local_ok || !cfg.pairs.any badPairLocal) &&
    (base_remote_ok || !cfg.pairs.any badPairRemote)

/-- Modelled from the claim's words (for comparison with
`validate_config`): either both base paths are non-empty, or every
configured pair has an absolute local path and a colon-qualified
remote. -/
def claimedConfigInvariant (cfg : JobConfig) : Bool :=
  (!cfg.local_path.isEmpty && !cfg.remote.isEmpty) ||
  (cfg.pairs.all (fun p =>
    ['/'].isPrefixOf p.localPath.toList && containsCl [':'] p.remote.toList))

/-! ## Helper lemmas -/

theorem str_append_assoc (a b c : String) : a ++ b ++ c = a ++ (b ++ c) :=
  String.ext (by simp)

theorem str_append_eq_empty {a b : String} : a ++ b = "" ↔ a = "" ∧ b = "" := by
  constructor
  · intro h
    have hd := congrArg String.data h
    simp only [String.data_append] at hd
    rcases List.append_eq_nil.mp hd with ⟨h1, h2⟩
    exact ⟨String.ext h1, String.ext h2⟩
  · rintro ⟨rfl, rfl⟩; rfl

theorem str_append_ne_left {a : String} (b : String) (h : a ≠ "") : a ++ b ≠ "" :=
  fun hc => h (str_append_eq_empty.mp hc).1

theorem str_isEmpty_false {s : String} (h : s ≠ "") : s.isEmpty = false :=
  Bool.eq_false_iff.mpr (fun hh => h ((String.isEmpty_iff s).mp hh))

theorem str_empty_isEmpty : ("" : String).isEmpty = true := rfl

theorem combineChunk_empty_right (acc : String) : combineChunk acc "" = acc := by
  simp [combineChunk, str_empty_isEmpty]

theorem combineChunk_empty_left (chunk : String) : combineChunk "" chunk = chunk := by
  simp [combineChunk, str_empty_isEmpty]

theorem combineChunk_ne {acc chunk : String} (h1 : acc ≠ "") (h2 : chunk ≠ "") :
    combineChunk acc chunk = acc ++ "\n" ++ chunk := by
  unfold combineChunk
  rw [str_isEmpty_false h1, str_isEmpty_false h2]
  simp

theorem foldl_combineChunk : ∀ (l : List String) (acc : String),
    l.foldl combineChunk acc = combineChunk acc (joinNonEmpty l)
  | [], acc => by simp [joinNonEmpty, combineChunk_empty_right]
  | c :: rest, acc => by
    rw [List.foldl_cons, foldl_combineChunk rest]
    by_cases hc : c = ""
    · subst hc
      rw [combineChunk_empty_right]
      simp [joinNonEmpty, str_empty_isEmpty]
    · by_cases hr : joinNonEmpty rest = ""
      · rw [hr, combineChunk_empty_right]
        simp [joinNonEmpty, hr, str_isEmpty_false hc, str_empty_isEmpty]
      · have hj : joinNonEmpty (c :: rest) = c ++ "\n" ++ joinNonEmpty rest := by
          simp [joinNonEmpty, str_isEmpty_false hc, str_isEmpty_false hr]
        rw [hj]
        by_cases ha : acc = ""
        · subst ha
          rw [combineChunk_empty_left, combineChunk_empty_left, combineChunk_ne hc hr]
        · rw [combineChunk_ne ha hc,
            combineChunk_ne (str_append_ne_left _ (str_append_ne_left _ ha)) hr,
            combineChunk_ne ha (str_append_ne_left _ (str_append_ne_left _ hc))]
          simp [str_append_assoc]

theorem foldl_lastExit : ∀ (l : List Int) (acc : Int),
    l.foldl (fun a c => if c != 0 then c else a) acc
      = (l.filter (fun c => c != 0)).getLastD acc
  | [], _ => rfl
  | c :: rest, acc => by
    rw [List.foldl_cons, foldl_lastExit rest]
    by_cases hc : c = 0
    · subst hc
      rw [if_neg (by decide : ¬(((0 : Int) != 0) = true)),
        List.filter_cons_of_neg (by decide)]
    · have hb : (c != 0) = true := by simpa using hc
      rw [if_pos hb, List.filter_cons_of_pos (by simpa using hc), List.getLastD_cons]

theorem runPairsAux_spec (a : Bool) (rs : String → Bool)
    (ex : Nat → Nat → List String → AttemptResult) :
    ∀ (ps : List SyncPair) (idx : Nat) (so se : String) (fe : Int),
    runPairsAux a rs ex ps idx so se fe =
      (((List.range ps.length).map
          (fun j => (runPair a rs (ex (idx + j))).result.stdout)).foldl combineChunk so,
       ((List.range ps.length).map
          (fun j => (runPair a rs (ex (idx + j))).result.stderr)).foldl combineChunk se,
       ((List.range ps.length).map
          (fun j => (runPair a rs (ex (idx + j))).result.code)).foldl
          (fun acc c => if c != 0 then c else acc) fe,
       (List.range ps.length).map (fun j => (runPair a rs (ex (idx + j))).attempts))
  | [], idx, so, se, fe => by simp [runPairsAux]
  | p :: rest, idx, so, se, fe => by
    have hsh : ∀ {α : Type} (G : Nat → α),
        (List.range rest.length).map (fun j => G (idx + 1 + j))
          = (List.range rest.length).map (fun j => G (idx + (j + 1))) :=
      fun G => List.map_congr_left (fun j _ => congrArg G (by omega))
    simp only [runPairsAux]
    rw [runPairsAux_spec a rs ex rest (idx + 1), List.length_cons, List.range_succ_eq_map]
    simp only [List.map_cons, List.map_map, List.foldl_cons, Nat.add_zero, Function.comp_def,
      Nat.succ_eq_add_one]
    rw [hsh (fun k => (runPair a rs (ex k)).result.stdout),
        hsh (fun k => (runPair a rs (ex k)).result.stderr),
        hsh (fun k => (runPair a rs (ex k)).result.code),
        hsh (fun k => (runPair a rs (ex k)).attempts)]

/-! ## Claim C5 : lock acquisition -/

/-- Claim C5: Lock acquisition: with no lock file, acquire succeeds and
writes the current process id; with a file recording a live pid, it
fails with `AlreadyRunning` carrying that pid (file untouched); with a
dead or unparsable recorded pid, the stale file is deleted and
acquisition proceeds, recreating the file with the current pid. -/
theorem lockguard_acquire_cases (content : Option String) (alive : Nat → Bool) (mypid : Nat) :
    (content = none →
      LockGuard.acquire content alive mypid
        = ⟨Except.ok (), some (toString mypid ++ "\n"), false⟩) ∧
    (∀ s q, content = some s → parseU32 (trimCl s.toList) = some q → alive q = true →
      LockGuard.acquire content alive mypid
        = ⟨Except.error (LockError.alreadyRunning q), some s, false⟩) ∧
    (∀ s, content = some s →
      (∀ q, parseU32 (trimCl s.toList) = some q → alive q = false) →
      LockGuard.acquire content alive mypid
        = ⟨Except.ok (), some (toString mypid ++ "\n"), true⟩) := by
  refine ⟨?_, ?_, ?_⟩
  · rintro rfl; rfl
  · rintro s q rfl hp ha
    have hp' : parseU32 (trimCl s.data) = some q := hp
    simp [LockGuard.acquire, hp', ha]
  · rintro s rfl hdead
    cases hp : parseU32 (trimCl s.toList) with
    | none =>
      have hp' : parseU32 (trimCl s.data) = none := hp
      simp [LockGuard.acquire, hp']
    | some q =>
      have hp' : parseU32 (trimCl s.data) = some q := hp
      simp [LockGuard.acquire, hp', hdead q hp]

theorem lockguard_acquire_cases_witness :
    LockGuard.acquire (some "99") (fun _ => false) 7
      = ⟨Except.ok (), some (toString 7 ++ "\n"), true⟩ :=
  (lockguard_acquire_cases (some "99") (fun _ => false) 7).2.2 "99" rfl (fun _ _ => rfl)

/-! ## Claim C10 : detect_running -/

/-- Claim C10: `detect_running` returns no running info when the lock
file is missing/unreadable, when its content does not parse as a
decimal pid, or when the recorded pid is dead (deleting the stale file
in the dead-pid case); it returns running info exactly when the file
records a currently-alive pid. -/
theorem detect_running_cases (content : Option String) (alive : Nat → Bool)
    (mtime : Option Nat) :
    (content = none → detect_running content alive mtime = ⟨none, none⟩) ∧
    (∀ s, content = some s → parseU32 (trimCl s.toList) = none →
      detect_running content alive mtime = ⟨none, some s⟩) ∧
    (∀ s q, content = some s → parseU32 (trimCl s.toList) = some q → alive q = false →
      detect_running content alive mtime = ⟨none, none⟩) ∧
    (∀ s q, content = some s → parseU32 (trimCl s.toList) = some q → alive q = true →
      detect_running content alive mtime = ⟨some ⟨mtime⟩, some s⟩) ∧
    (∀ info fsAfter, detect_running content alive mtime = ⟨some info, fsAfter⟩ →
      ∃ s q, content = some s ∧ parseU32 (trimCl s.toList) = some q ∧ alive q = true) := by
  refine ⟨?_, ?_, ?_, ?_, ?_⟩
  · rintro rfl; rfl
  · rintro s rfl hp
    have hp' : parseU32 (trimCl s.data) = none := hp
    simp [detect_running, hp']
  · rintro s q rfl hp ha
    have hp' : parseU32 (trimCl s.data) = some q := hp
    simp [detect_running, hp', ha]
  · rintro s q rfl hp ha
    have hp' : parseU32 (trimCl s.data) = some q := hp
    simp [detect_running, hp', ha]
  · intro info fsAfter h
    cases hc : content with
    | none => rw [hc] at h; simp [detect_running] at h
    | some s =>
      rw [hc] at h
      cases hp : parseU32 (trimCl s.toList) with
      | none =>
        have hp' : parseU32 (trimCl s.data) = none := hp
        simp [detect_running, hp'] at h
      | some q =>
        cases ha : alive q with
        | false =>
          have hp' : parseU32 (trimCl s.data) = some q := hp
          simp [detect_running, hp', ha] at h
        | true => exact ⟨s, q, rfl, hp, ha⟩

theorem detect_running_cases_witness :
    detect_running (some "55") (fun _ => false) (some 9) = ⟨none, none⟩ :=
  (detect_running_cases (some "55") (fun _ => false) (some 9)).2.2.1 "55" 55 rfl
    (by decide) rfl

/-! ## Claim C4 : contention is a successful no-op run -/

/-- Claim C4: when lock acquisition finds a lock file recording a live
pid, `run_job` returns successfully with exit code 0, a stderr message
naming that pid, no log file, and no pair executed. -/
theorem run_job_already_running
    (cfg : JobConfig) (cfgPath logPath s : String) (alive : Nat → Bool) (mypid : Nat)
    (removeStale : String → Bool) (exec : Nat → Nat → List String → AttemptResult)
    (q : Nat)
    (hv : validate_config cfg cfgPath = Except.ok ())
    (hp : parseU32 (trimCl s.toList) = some q)
    (ha : alive q = true) :
    run_job cfg cfgPath logPath (some s) alive mypid removeStale exec =
      Except.ok ⟨⟨0, "",
        "Sync already running (PID: " ++ toString q ++ "). Skipping this run.",
        none⟩, []⟩ := by
  have hp' : parseU32 (trimCl s.data) = some q := hp
  simp [run_job, hv, LockGuard.acquire, hp', ha]

theorem run_job_already_running_witness :
    run_job (JobConfig.mk "j" "/a" "r:" [] none [] [] none none true true true)
        "/cfg" "/log" (some "42\n") (fun p => p == 42) 7 (fun _ => false)
        (fun _ _ _ => ⟨0, "", ""⟩) =
      Except.ok ⟨⟨0, "", "Sync already running (PID: 42). Skipping this run.", none⟩, []⟩ :=
  (run_job_already_running
    (JobConfig.mk "j" "/a" "r:" [] none [] [] none none true true true)
    "/cfg" "/log" "42\n" (fun p => p == 42) 7 (fun _ => false)
    (fun _ _ _ => ⟨0, "", ""⟩) 42 (by decide) (by decide) (by decide)).trans (by decide)

/-! ## Claim C6 : per-pair attempt bound and recovery policy -/

theorem runPair_eq (autoResync : Bool) (removeStale : String → Bool)
    (e : Nat → List String → AttemptResult) :
    runPair autoResync removeStale e =
      if ((lockCleanupPhase removeStale e).1.code != 0
          && needs_resync (lockCleanupPhase removeStale e).1.stdout
              (lockCleanupPhase removeStale e).1.stderr) then
        if autoResync then
          ⟨e (lockCleanupPhase removeStale e).2.length ["--resync"],
            (lockCleanupPhase removeStale e).2 ++ [["--resync"]], false⟩
        else ⟨(lockCleanupPhase removeStale e).1, (lockCleanupPhase removeStale e).2, true⟩
      else ⟨(lockCleanupPhase removeStale e).1, (lockCleanupPhase removeStale e).2, false⟩ :=
  rfl

theorem lockCleanupPhase_cases (removeStale : String → Bool)
    (e : Nat → List String → AttemptResult) :
    ((lockCleanupPhase removeStale e).1 = e 0 []
        ∧ (lockCleanupPhase removeStale e).2 = [[]]) ∨
    ((lockCleanupPhase removeStale e).1 = e 1 []
        ∧ (lockCleanupPhase removeStale e).2 = [[], []]) := by
  simp only [lockCleanupPhase]
  by_cases h0 : ((e 0 []).code != 0) = true
  · rw [if_pos h0]
    cases hd : detect_prior_lock_file (e 0 []).stdout (e 0 []).stderr with
    | none => exact Or.inl ⟨rfl, rfl⟩
    | some lp =>
      dsimp only
      by_cases hrs : removeStale lp = true
      · rw [if_pos hrs]
        exact Or.inr ⟨rfl, rfl⟩
      · rw [if_neg hrs]
        exact Or.inl ⟨rfl, rfl⟩
  · rw [if_neg h0]
    exact Or.inl ⟨rfl, rfl⟩

/-- Claim C6: at most 3 subprocess attempts per pair; the pair's final
code/stdout/stderr are its last attempt's; a failing latest attempt
matching a recovery signal triggers exactly one extra `--resync`
attempt when `auto_resync`, and zero extra attempts (keeping the
failing result, with a log note) otherwise. -/
theorem runPair_attempts_spec (autoResync : Bool) (removeStale : String → Bool)
    (e : Nat → List String → AttemptResult) :
    (runPair autoResync removeStale e).attempts.length ≤ 3 ∧
    (runPair autoResync removeStale e).result
      = e ((runPair autoResync removeStale e).attempts.length - 1)
          ((runPair autoResync removeStale e).attempts.getLastD []) ∧
    (((lockCleanupPhase removeStale e).1.code != 0
        && needs_resync (lockCleanupPhase removeStale e).1.stdout
            (lockCleanupPhase removeStale e).1.stderr) = true →
      (autoResync = true →
        (runPair autoResync removeStale e).attempts
            = (lockCleanupPhase removeStale e).2 ++ [["--resync"]] ∧
        (runPair autoResync removeStale e).result
            = e (lockCleanupPhase removeStale e).2.length ["--resync"] ∧
        (runPair autoResync removeStale e).resyncNote = false) ∧
      (autoResync = false →
        (runPair autoResync removeStale e).attempts = (lockCleanupPhase removeStale e).2 ∧
        (runPair autoResync removeStale e).result = (lockCleanupPhase removeStale e).1 ∧
        (runPair autoResync removeStale e).resyncNote = true)) ∧
    (((lockCleanupPhase removeStale e).1.code != 0
        && needs_resync (lockCleanupPhase removeStale e).1.stdout
            (lockCleanupPhase removeStale e).1.stderr) = false →
      (runPair autoResync removeStale e).attempts = (lockCleanupPhase removeStale e).2 ∧
      (runPair autoResync removeStale e).result = (lockCleanupPhase removeStale e).1 ∧
      (runPair autoResync removeStale e).resyncNote = false) := by
  rcases lockCleanupPhase_cases removeStale e with ⟨h1, h2⟩ | ⟨h1, h2⟩
  · rw [runPair_eq, h1, h2]
    by_cases hcond : ((e 0 []).code != 0
        && needs_resync (e 0 []).stdout (e 0 []).stderr) = true
    · cases autoResync <;> simp [hcond]
    · simp [hcond]
  · rw [runPair_eq, h1, h2]
    by_cases hcond : ((e 1 []).code != 0
        && needs_resync (e 1 []).stdout (e 1 []).stderr) = true
    · cases autoResync <;> simp [hcond]
    · simp [hcond]

theorem runPair_attempts_spec_witness :
    (runPair true (fun _ => false)
        (fun _ ex => if ex == ["--resync"] then ⟨0, "ok", ""⟩
          else ⟨1, "", "must run --resync"⟩)).attempts = [[], ["--resync"]] ∧
    (runPair false (fun _ => false)
        (fun _ ex => if ex == ["--resync"] then ⟨0, "ok", ""⟩
          else ⟨1, "", "must run --resync"⟩)).attempts = [[]] := by
  constructor
  · have h := ((runPair_attempts_spec true (fun _ => false)
      (fun _ ex => if ex == ["--resync"] then ⟨0, "ok", ""⟩
        else ⟨1, "", "must run --resync"⟩)).2.2.1 (by decide)).1 rfl
    rw [h.1]
    decide
  · have h := ((runPair_attempts_spec false (fun _ => false)
      (fun _ ex => if ex == ["--resync"] then ⟨0, "ok", ""⟩
        else ⟨1, "", "must run --resync"⟩)).2.2.1 (by decide)).2 rfl
    rw [h.1]
    decide

/-! ## Claim C1 : run_job aggregation across pairs -/

/-- Claim C1 (amended): for every run that passes validation and
acquires the lock, the `RunResult`'s exit code is the exit code of the
last pair (in execution order) whose final attempt exited non-zero (0
when none did), and its stdout/stderr are the concatenations, in pair
order, of each pair's last-attempt stdout/stderr with a single newline
between consecutive non-empty chunks. -/
theorem run_job_last_failure_aggregation
    (cfg : JobConfig) (cfgPath logPath : String) (lockContent : Option String)
    (alive : Nat → Bool) (mypid : Nat) (removeStale : String → Bool)
    (exec : Nat → Nat → List String → AttemptResult)
    (hv : validate_config cfg cfgPath = Except.ok ())
    (hl : (LockGuard.acquire lockContent alive mypid).outcome = Except.ok ()) :
    run_job cfg cfgPath logPath lockContent alive mypid removeStale exec =
      Except.ok
        ⟨⟨lastFailingExit ((List.range (effectivePairs cfg).length).map
            (fun j => (runPair cfg.auto_resync removeStale (exec j)).result.code)),
          joinNonEmpty ((List.range (effectivePairs cfg).length).map
            (fun j => (runPair cfg.auto_resync removeStale (exec j)).result.stdout)),
          joinNonEmpty ((List.range (effectivePairs cfg).length).map
            (fun j => (runPair cfg.auto_resync removeStale (exec j)).result.stderr)),
          some logPath⟩,
         (List.range (effectivePairs cfg).length).map
            (fun j => (runPair cfg.auto_resync removeStale (exec j)).attempts)⟩ := by
  simp only [run_job, hv, hl]
  rw [runPairsAux_spec]
  simp only [Nat.zero_add]
  rw [foldl_combineChunk, foldl_combineChunk, combineChunk_empty_left,
    combineChunk_empty_left, foldl_lastExit]
  rfl

theorem run_job_last_failure_aggregation_witness :
    run_job (JobConfig.mk "j" "/a" "r:" [] none [] [] none none true true true)
        "/cfg" "/log" none (fun _ => false) 7 (fun _ => false)
        (fun _ _ _ => ⟨0, "out", ""⟩) =
      Except.ok ⟨⟨0, "out", "", some "/log"⟩, [[[]]]⟩ :=
  (run_job_last_failure_aggregation
    (JobConfig.mk "j" "/a" "r:" [] none [] [] none none true true true)
    "/cfg" "/log" none (fun _ => false) 7 (fun _ => false)
    (fun _ _ _ => ⟨0, "out", ""⟩) (by decide) (by decide)).trans (by decide)

/-- Claim C1 counterexample: a run with two failing pairs (codes 1 then
2, outputs "a"/"c" then "b"/"d") yields exit code 2 — the last failing
pair's code, not the first's — and stdout "a\n b" (with a separating
newline), not the plain concatenation "ab". -/
theorem run_job_first_failure_counterexample :
    run_job
        (JobConfig.mk "j" "/a" "r:" [] none
          [SyncPair.mk "/x" "a:x", SyncPair.mk "/y" "b:y"] [] none none true true true)
        "/cfg" "/log" none (fun _ => false) 7 (fun _ => false)
        (fun i _ _ => if i == 0 then ⟨1, "a", "c"⟩ else ⟨2, "b", "d"⟩) =
      Except.ok ⟨⟨2, "a\nb", "c\nd", some "/log"⟩, [[[]], [[]]]⟩
    ∧ (2 : Int) ≠ 1 ∧ ("a\nb" : String) ≠ "a" ++ "b" := by decide

/-! ## Claim C7 : pair path resolution -/

/-- Claim C7 (amended): pair resolution first trims both values; a
trimmed local starting with `/` resolves to itself, an empty one to the
base local, any other is joined as `base/suffix` (base stripped of
trailing slashes); a trimmed remote containing `:` resolves to itself,
an empty one to the base remote, any other is appended to the base
(stripped of trailing slashes) with no separator when the base then
ends in `:` and with `/` otherwise. -/
theorem resolve_pair_paths_spec (cfg : JobConfig) (pair : SyncPair) :
    (['/'].isPrefixOf (trimCl pair.localPath.toList) = true →
      (resolve_pair_paths cfg pair).1 = String.mk (trimCl pair.localPath.toList)) ∧
    (trimCl pair.localPath.toList = [] →
      (resolve_pair_paths cfg pair).1 = cfg.local_path) ∧
    (['/'].isPrefixOf (trimCl pair.localPath.toList) = false →
      trimCl pair.localPath.toList ≠ [] →
      (resolve_pair_paths cfg pair).1
        = String.mk (trimEndMatchesCl '/' cfg.local_path.toList) ++ "/"
            ++ String.mk (trimCl pair.localPath.toList)) ∧
    (containsCl [':'] (trimCl pair.remote.toList) = true →
      (resolve_pair_paths cfg pair).2 = String.mk (trimCl pair.remote.toList)) ∧
    (trimCl pair.remote.toList = [] →
      (resolve_pair_paths cfg pair).2 = cfg.remote) ∧
    (containsCl [':'] (trimCl pair.remote.toList) = false →
      trimCl pair.remote.toList ≠ [] →
      (resolve_pair_paths cfg pair).2
        = (if (trimEndMatchesCl '/' cfg.remote.toList).getLast? = some ':' then
            String.mk (trimEndMatchesCl '/' cfg.remote.toList)
              ++ String.mk (trimCl pair.remote.toList)
          else
            String.mk (trimEndMatchesCl '/' cfg.remote.toList) ++ "/"
              ++ String.mk (trimCl pair.remote.toList))) := by
  refine ⟨?_, ?_, ?_, ?_, ?_, ?_⟩
  · intro h
    have hpre : ['/'] <+: trimCl pair.localPath.data := by
      have h' : (['/'].isPrefixOf (trimCl pair.localPath.data)) = true := h
      exact List.isPrefixOf_iff_prefix.mp h'
    simp [resolve_pair_paths, hpre]
  · intro h
    have h' : trimCl pair.localPath.data = [] := h
    simp [resolve_pair_paths, h']
  · intro h1 h2
    have hpre : ¬(['/'] <+: trimCl pair.localPath.data) := by
      intro hx
      have h' : (['/'].isPrefixOf (trimCl pair.localPath.data)) = true :=
        List.isPrefixOf_iff_prefix.mpr hx
      have h1' : (['/'].isPrefixOf (trimCl pair.localPath.data)) = false := h1
      rw [h1'] at h'
      exact Bool.false_ne_true h'
    have h2' : trimCl pair.localPath.data ≠ [] := h2
    simp [resolve_pair_paths, hpre, h2']
  · intro h
    have h' : containsCl [':'] (trimCl pair.remote.data) = true := h
    simp [resolve_pair_paths, h']
  · intro h
    have h' : trimCl pair.remote.data = [] := h
    have hc : containsCl [':'] ([] : List Char) = false := rfl
    simp [resolve_pair_paths, h', hc]
  · intro h1 h2
    have h1' : containsCl [':'] (trimCl pair.remote.data) = false := h1
    have h2' : trimCl pair.remote.data ≠ [] := h2
    simp [resolve_pair_paths, h1', h2']

theorem resolve_pair_paths_spec_witness :
    (resolve_pair_paths
        (JobConfig.mk "j" "/home/u" "gdrive:" [] none [] [] none none true true true)
        (SyncPair.mk "" "sub")).2 = "gdrive:sub" ∧
    (resolve_pair_paths
        (JobConfig.mk "j" "/home/u" "gdrive:base" [] none [] [] none none true true true)
        (SyncPair.mk "" "sub")).2 = "gdrive:base/sub" := by
  constructor
  · have h := (resolve_pair_paths_spec
      (JobConfig.mk "j" "/home/u" "gdrive:" [] none [] [] none none true true true)
      (SyncPair.mk "" "sub")).2.2.2.2.2 (by decide) (by decide)
    rw [h]
    decide
  · have h := (resolve_pair_paths_spec
      (JobConfig.mk "j" "/home/u" "gdrive:base" [] none [] [] none none true true true)
      (SyncPair.mk "" "sub")).2.2.2.2.2 (by decide) (by decide)
    rw [h]
    decide

/-- Claim C7 counterexample: a pair local of " /x" (leading blank) is
trimmed first and resolves to "/x", not to the suffix-join
"/home/u/ /x" that the untrimmed reading of the claim prescribes. -/
theorem resolve_pair_paths_counterexample :
    (resolve_pair_paths
        (JobConfig.mk "j" "/home/u" "gdrive:base" [] none [] [] none none true true true)
        (SyncPair.mk " /x" "")).1 = "/x"
    ∧ ("/x" : String) ≠ "/home/u/ /x" := by decide

/-! ## Claim C3 : configuration validation -/

theorem validate_shape_aux (pe blo bro al ar : Bool) (m1 m2 m3 : String) :
    ((if pe then (if blo && bro then Except.ok () else Except.error m1)
      else if !blo && al then Except.error m2
      else if !bro && ar then Except.error m3
      else Except.ok ()) = (Except.ok () : Except String Unit)
      ↔ (if pe then blo && bro else (blo || !al) && (bro || !ar)) = true) ∧
    ((if pe then blo && bro else (blo || !al) && (bro || !ar)) = false →
      ((if pe then (if blo && bro then Except.ok () else Except.error m1)
        else if !blo && al then Except.error m2
        else if !bro && ar then Except.error m3
        else Except.ok ()) = (Except.error m1 : Except String Unit)
       ∨ (if pe then (if blo && bro then Except.ok () else Except.error m1)
          else if !blo && al then Except.error m2
          else if !bro && ar then Except.error m3
          else Except.ok ()) = (Except.error m2 : Except String Unit)
       ∨ (if pe then (if blo && bro then Except.ok () else Except.error m1)
          else if !blo && al then Except.error m2
          else if !bro && ar then Except.error m3
          else Except.ok ()) = (Except.error m3 : Except String Unit))) := by
  cases pe <;> cases blo <;> cases bro <;> cases al <;> cases ar <;> simp

theorem msg_mentions_name_and_path (name mid path : String) :
    name.data <:+: ("Job " ++ sq ++ name ++ sq ++ mid ++ path).data ∧
    path.data <:+: ("Job " ++ sq ++ name ++ sq ++ mid ++ path).data := by
  constructor
  · exact ⟨("Job " ++ sq).data, (sq ++ (mid ++ path)).data, by simp [List.append_assoc]⟩
  · exact ⟨("Job " ++ sq ++ name ++ sq ++ mid).data, [], by simp [List.append_assoc]⟩

/-- Claim C3 (amended): `validate_config` accepts exactly the
configurations satisfying `configValid` (no pairs: both trimmed bases
non-blank; with pairs: a blank base local demands every pair local
absolute, a blank base remote demands every pair remote
colon-qualified); on any other configuration `run_job` fails fast with
an error naming the job and config path, with no subprocess attempt —
its result does not depend on the subprocess oracle. -/
theorem run_job_validation_characterization
    (cfg : JobConfig) (cfgPath logPath : String) (lockContent : Option String)
    (alive : Nat → Bool) (mypid : Nat) (removeStale : String → Bool)
    (exec : Nat → Nat → List String → AttemptResult) :
    (validate_config cfg cfgPath = Except.ok () ↔ configValid cfg = true) ∧
    (configValid cfg = false →
      ∃ m, run_job cfg cfgPath logPath lockContent alive mypid removeStale exec
            = Except.error m ∧
        cfg.name.data <:+: m.data ∧ cfgPath.data <:+: m.data ∧
        ∀ exec2, run_job cfg cfgPath logPath lockContent alive mypid removeStale exec2
            = Except.error m) := by
  have haux := validate_shape_aux cfg.pairs.isEmpty
    (!(trimCl cfg.local_path.toList).isEmpty) (!(trimCl cfg.remote.toList).isEmpty)
    (cfg.pairs.any badPairLocal) (cfg.pairs.any badPairRemote)
    (notConfiguredMsg cfg.name cfgPath) (missingLocalMsg cfg.name cfgPath)
    (missingRemoteMsg cfg.name cfgPath)
  constructor
  · exact haux.1
  · intro hF
    rcases haux.2 hF with hv | hv | hv
    · have hv' : validate_config cfg cfgPath
          = Except.error (notConfiguredMsg cfg.name cfgPath) := hv
      refine ⟨notConfiguredMsg cfg.name cfgPath, by simp [run_job, hv'], ?_, ?_,
        fun exec2 => by simp [run_job, hv']⟩
      · exact (msg_mentions_name_and_path cfg.name
          " is not configured. Please set local_path and remote in " cfgPath).1
      · exact (msg_mentions_name_and_path cfg.name
          " is not configured. Please set local_path and remote in " cfgPath).2
    · have hv' : validate_config cfg cfgPath
          = Except.error (missingLocalMsg cfg.name cfgPath) := hv
      refine ⟨missingLocalMsg cfg.name cfgPath, by simp [run_job, hv'], ?_, ?_,
        fun exec2 => by simp [run_job, hv']⟩
      · exact (msg_mentions_name_and_path cfg.name
          " is missing local_path and has a relative/empty pair.local. Update " cfgPath).1
      · exact (msg_mentions_name_and_path cfg.name
          " is missing local_path and has a relative/empty pair.local. Update " cfgPath).2
    · have hv' : validate_config cfg cfgPath
          = Except.error (missingRemoteMsg cfg.name cfgPath) := hv
      refine ⟨missingRemoteMsg cfg.name cfgPath, by simp [run_job, hv'], ?_, ?_,
        fun exec2 => by simp [run_job, hv']⟩
      · exact (msg_mentions_name_and_path cfg.name
          " is missing remote and has a non-absolute/empty pair.remote. Update " cfgPath).1
      · exact (msg_mentions_name_and_path cfg.name
          " is missing remote and has a non-absolute/empty pair.remote. Update " cfgPath).2

theorem run_job_validation_characterization_witness :
    configValid (JobConfig.mk "j" "" "" [] none [] [] none none true true true) = false ∧
    ∃ m, run_job (JobConfig.mk "j" "" "" [] none [] [] none none true true true)
          "/cfg" "/log" none (fun _ => false) 7 (fun _ => false) (fun _ _ _ => ⟨0, "", ""⟩)
          = Except.error m ∧
      ("j" : String).data <:+: m.data ∧ ("/cfg" : String).data <:+: m.data ∧
      ∀ exec2, run_job (JobConfig.mk "j" "" "" [] none [] [] none none true true true)
          "/cfg" "/log" none (fun _ => false) 7 (fun _ => false) exec2
          = Except.error m :=
  ⟨by decide,
   (run_job_validation_characterization
      (JobConfig.mk "j" "" "" [] none [] [] none none true true true)
      "/cfg" "/log" none (fun _ => false) 7 (fun _ => false)
      (fun _ _ _ => ⟨0, "", ""⟩)).2 (by decide)⟩

/-- Claim C3 counterexample: the empty configuration with no pairs
satisfies the claimed invariant (its every-pair condition is vacuously
true), yet validation rejects it. -/
theorem validate_config_counterexample :
    claimedConfigInvariant (JobConfig.mk "j" "" "" [] none [] [] none none true true true)
        = true
    ∧ validate_config (JobConfig.mk "j" "" "" [] none [] [] none none true true true)
        "/cfg" ≠ Except.ok () := by decide

/-! ## Claim C2 : Transferred/Copied fallback count -/

theorem lastHit_dflt (entries : List (Nat × Bool)) (want : Bool) (d : Option Nat) :
    lastHit entries want d
      = match lastHit entries want none with
        | some n => some n
        | none => d := by
  unfold lastHit
  cases entries.reverse.find? (fun e => e.2 == want) <;> rfl

theorem lastHit_append_one (E : List (Nat × Bool)) (e : Nat × Bool) (want : Bool)
    (d : Option Nat) :
    lastHit (E ++ [e]) want d
      = if e.2 == want then some e.1 else lastHit E want d := by
  unfold lastHit
  rw [List.reverse_append]
  simp only [List.reverse_cons, List.reverse_nil, List.nil_append, List.singleton_append]
  rw [List.find?_cons]
  by_cases hb : (e.2 == want) = true
  · simp [hb]
  · simp [hb]

theorem transfer_foldl_spec (lab : List Char) (lines : List (List Char)) :
    ∀ (a1 a2 : Option Nat),
    lines.foldl
      (fun (acc : Option Nat × Option Nat) line =>
        match transferLineNum lab line with
        | some (n, true) => (some n, acc.2)
        | some (n, false) => (acc.1, some n)
        | none => acc) (a1, a2)
    = (lastHit (lines.filterMap (transferLineNum lab)) true a1,
       lastHit (lines.filterMap (transferLineNum lab)) false a2) := by
  induction lines using List.reverseRecOn with
  | nil => intro a1 a2; rfl
  | append_singleton l x ih =>
    intro a1 a2
    rw [List.foldl_append, List.foldl_cons, List.foldl_nil, ih]
    cases hx : transferLineNum lab x with
    | none =>
      simp only [hx, List.filterMap_append, List.filterMap_cons_none hx,
        List.filterMap_nil, List.append_nil]
    | some e =>
      cases e with
      | mk n b =>
        rw [List.filterMap_append, List.filterMap_cons_some hx, List.filterMap_nil]
        cases b
        · simp only [hx]
          rw [lastHit_append_one, lastHit_append_one]
          simp
        · simp only [hx]
          rw [lastHit_append_one, lastHit_append_one]
          simp

theorem extract_eq_spec (text label : String) :
    extract_last_number_after_label text label = extractSpec text label := by
  simp only [extract_last_number_after_label, extractSpec]
  rw [transfer_foldl_spec]
  rw [lastHit_dflt ((rustLinesCl text.toList).filterMap (transferLineNum label.toList))
    true (lastHit ((rustLinesCl text.toList).filterMap (transferLineNum label.toList))
      false none)]

/-- Claim C2 (amended): on output with no `PathN: … changes:` line, the
derived count is built from the total field — the number after the
first `" / "` and before the following comma — of `Transferred:` lines:
the last `100%`-flagged such line wins, else the last such line at any
percentage; a `Copied:`-labeled equivalent is saturating-added when
both are present, and used alone when only one label matches.  (In
particular, on `Transferred: 52 / 262, 20%` followed by
`Transferred: 262 / 262, 100%` the derived count is 262.) -/
theorem detect_changed_count_transfer_fallback (r : ScriptResult)
    (h : (sum_path_changes (r.stdout ++ "\n" ++ r.stderr)).2 = false) :
    detect_changed_count r =
      match extractSpec (r.stdout ++ "\n" ++ r.stderr) "Transferred:",
            extractSpec (r.stdout ++ "\n" ++ r.stderr) "Copied:" with
      | some t, some c => some (u32SatAdd t c)
      | some t, none => some t
      | none, some c => some c
      | none, none => none := by
  simp only [detect_changed_count]
  rw [if_neg (by rw [h]; exact Bool.false_ne_true)]
  rw [extract_eq_spec, extract_eq_spec]

theorem detect_changed_count_transfer_fallback_witness :
    (sum_path_changes
        ("" ++ "\n" ++ "Transferred: 52 / 262, 20%\nTransferred: 262 / 262, 100%")).2
        = false ∧
    detect_changed_count
        ⟨0, 0, "", "Transferred: 52 / 262, 20%\nTransferred: 262 / 262, 100%",
          none, none⟩ = some 262 := by
  refine ⟨by decide, ?_⟩
  rw [detect_changed_count_transfer_fallback
    ⟨0, 0, "", "Transferred: 52 / 262, 20%\nTransferred: 262 / 262, 100%", none, none⟩
    (by decide)]
  decide

/-- Claim C2 counterexample: on output whose only progress line is
`Transferred: 52 / 262, 20%`, the code derives 262 — the number after
the slash — not the completed-count 52 that the claim names. -/
theorem detect_changed_count_completed_count_counterexample :
    detect_changed_count ⟨0, 0, "", "Transferred: 52 / 262, 20%", none, none⟩
        = some 262
    ∧ (262 : Nat) ≠ 52 := by decide

/-! ## Claim C8 : summing PathN change counters -/

theorem not_isEmpty_append {α : Type} (l1 l2 : List α) :
    (!(l1 ++ l2).isEmpty) = (!l1.isEmpty || !l2.isEmpty) := by
  cases l1 <;> cases l2 <;> simp

theorem pathChanges_label_foldl (line : List Char) :
    ∀ (labels : List (List Char)) (acc : Nat × Bool),
    labels.foldl
      (fun acc lab =>
        match pathChangeNum lab line with
        | some n => (u32SatAdd acc.1 n, true)
        | none => acc) acc
    = ((labels.filterMap (fun lab => pathChangeNum lab line)).foldl u32SatAdd acc.1,
       acc.2 || !(labels.filterMap (fun lab => pathChangeNum lab line)).isEmpty)
  | [], acc => by simp
  | lab :: rest, acc => by
    rw [List.foldl_cons, pathChanges_label_foldl line rest]
    cases hx : pathChangeNum lab line with
    | none => simp [hx]
    | some n => simp [hx]

theorem pathChanges_lines_foldl :
    ∀ (lines : List (List Char)) (acc : Nat × Bool),
    lines.foldl
      (fun acc line =>
        ["Path1:".toList, "Path2:".toList].foldl
          (fun acc lab =>
            match pathChangeNum lab line with
            | some n => (u32SatAdd acc.1 n, true)
            | none => acc) acc) acc
    = ((lines.flatMap (fun line => ["Path1:".toList, "Path2:".toList].filterMap
          (fun lab => pathChangeNum lab line))).foldl u32SatAdd acc.1,
       acc.2 || !(lines.flatMap (fun line => ["Path1:".toList, "Path2:".toList].filterMap
          (fun lab => pathChangeNum lab line))).isEmpty)
  | [], acc => by simp
  | line :: rest, acc => by
    rw [List.foldl_cons, pathChanges_label_foldl line, pathChanges_lines_foldl rest,
      List.flatMap_cons, List.foldl_append, not_isEmpty_append]
    simp [Bool.or_assoc]

theorem sum_path_changes_spec (text : String) :
    sum_path_changes text
      = ((pathChangesList text).foldl u32SatAdd 0, !(pathChangesList text).isEmpty) := by
  have h := pathChanges_lines_foldl (rustLinesCl text.toList) (0, false)
  simpa [sum_path_changes, pathChangesList] using h

/-- Claim C8 (amended): whenever some line carries a `Path1:`/`Path2:`
label followed by a count and a token beginning with `changes`, the
derived count is the sum of all such counts across the output, taken
with `u32` saturating addition. -/
theorem detect_changed_count_sums_path_changes (r : ScriptResult)
    (h : pathChangesList (r.stdout ++ "\n" ++ r.stderr) ≠ []) :
    detect_changed_count r
      = some ((pathChangesList (r.stdout ++ "\n" ++ r.stderr)).foldl u32SatAdd 0) := by
  have hne : (pathChangesList (r.stdout ++ "\n" ++ r.stderr)).isEmpty = false := by
    cases hc : pathChangesList (r.stdout ++ "\n" ++ r.stderr) with
    | nil => exact absurd hc h
    | cons a l => rfl
  simp [detect_changed_count, sum_path_changes_spec, hne]

theorem detect_changed_count_sums_path_changes_witness :
    pathChangesList
        ("" ++ "\n" ++ "Path1:   40 changes:    4 new\nPath1:    5 changes:    1 deleted")
        ≠ [] ∧
    detect_changed_count
        ⟨0, 0, "", "Path1:   40 changes:    4 new\nPath1:    5 changes:    1 deleted",
          none, none⟩ = some 45 := by
  refine ⟨by decide, ?_⟩
  rw [detect_changed_count_sums_path_changes
    ⟨0, 0, "", "Path1:   40 changes:    4 new\nPath1:    5 changes:    1 deleted",
      none, none⟩ (by decide)]
  decide

/-- Claim C8 counterexample: the code accepts any token beginning with
`changes` after the count, not only `changes:`; with lines
`Path1:   40 changes:` and `Path1:    5 changes done` the derived
count is 45, while the claim's pattern (`changes:` required) sums only
the first line, predicting 40. -/
theorem sum_path_changes_counterexample :
    detect_changed_count
        ⟨0, 0, "", "Path1:   40 changes:\nPath1:    5 changes done", none, none⟩
        = some 45
    ∧ (45 : Nat) ≠ 40 := by decide

/-! ## Claim C9 : status update from a run result -/

/-- Claim C9 (amended): applying a result with exit code 0 sets
`last_success` to the result's timestamp and clears `last_error`;
a non-zero exit leaves `last_success` unchanged and sets `last_error`
to the error summary — the trimmed last line of the trimmed stderr, or
`Exited with code N` when the trimmed stderr is empty. -/
theorem update_from_result_spec (st : SyncState) (r : ScriptResult) :
    (r.exit_code = 0 →
      (st.update_from_result r).last_success = some r.timestamp ∧
      (st.update_from_result r).last_error = none) ∧
    (r.exit_code ≠ 0 →
      (st.update_from_result r).last_success = st.last_success ∧
      (st.update_from_result r).last_error = error_summary r) ∧
    ((rustTrim r.stderr).isEmpty = false →
      error_summary r = ((rustLines (rustTrim r.stderr)).getLast?).map
        (fun l => rustTrim l)) ∧
    ((rustTrim r.stderr).isEmpty = true → r.exit_code ≠ 0 →
      error_summary r = some ("Exited with code " ++ toString r.exit_code)) := by
  refine ⟨?_, ?_, ?_, ?_⟩
  · intro h
    simp [SyncState.update_from_result, h]
  · intro h
    have hb : (r.exit_code == 0) = false := by simpa using h
    simp [SyncState.update_from_result, hb]
  · intro h
    simp [error_summary, h]
  · intro h1 h2
    have hb : (r.exit_code != 0) = true := by simpa using h2
    simp [error_summary, h1, hb]

theorem update_from_result_spec_witness :
    (SyncState.update_from_result
        ⟨"default", none, some 9, none, [], none, none, none, none, none⟩
        ⟨5, 2, "", "", none, none⟩).last_success = some 9 ∧
    error_summary ⟨5, 2, "", "", none, none⟩
      = some ("Exited with code " ++ toString (2 : Int)) := by
  constructor
  · exact ((update_from_result_spec
      ⟨"default", none, some 9, none, [], none, none, none, none, none⟩
      ⟨5, 2, "", "", none, none⟩).2.1 (by decide)).1
  · exact (update_from_result_spec
      ⟨"default", none, some 9, none, [], none, none, none, none, none⟩
      ⟨5, 2, "", "", none, none⟩).2.2.2 (by decide) (by decide)

/-- Claim C9 counterexample: for stderr `"x\n  b"` (indented last
line) and exit code 1, `last_error` becomes `"b"` — the last line is
trimmed again — not the claim's value `"  b"`, the literal last line
of the trimmed stderr. -/
theorem update_from_result_counterexample :
    (SyncState.update_from_result
        ⟨"default", none, some 3, none, [], none, none, none, none, none⟩
        ⟨5, 1, "x", "x\n  b", none, none⟩).last_error = some "b"
    ∧ ("b" : String) ≠ "  b" := by decide

end RcloneSync
